import Mathlib

/-
  Verification of the virtual-user lifecycle core of `locust/user/users.py`.

  The Python module is shallowly embedded below:
  * lifecycle states (`LOCUST_STATE_RUNNING` / `LOCUST_STATE_WAITING` /
    `LOCUST_STATE_STOPPING`, imported in the source from `locust.user.task`)
    become the inductive `LocustState`; the pre-`run()` value `None` of the
    instance attribute `_state` is modelled by `Option LocustState` with `none`;
  * Python exceptions relevant to the module become the inductive `PyExc`;
  * the metaclass `UserMeta.__new__` becomes a function from the would-be class
    dictionary and base classes to the built class record `UserClass`;
  * the instance methods `User.__init__`, `User.stop`, `User.run`, `User.wait`
    and `HttpUser.__init__` become pure functions over an explicit `User`
    record; side effects on the gevent group (the `killone` call) are returned
    as an explicit action list, and exceptions raised by user-overridable hooks
    (`on_start`) or by the task loop (`DefaultTaskSet.run`, defined in
    `locust/user/task.py`, outside the given sources) are parameters of `run`.
-/

namespace Locust

/-- The three lifecycle state constants imported from `locust.user.task`. -/
inductive LocustState
  | running
  | waiting
  | stopping
deriving DecidableEq, Repr

/-- The exceptions the module interacts with: the forced-kill signal
`gevent.GreenletExit`, the voluntary stop signal `locust.exception.StopUser`,
`locust.exception.LocustError`, Python `AttributeError`, and an arbitrary
other exception class identified by name. -/
inductive PyExc
  | greenletExit
  | stopUser
  | locustError (msg : String)
  | attributeError (msg : String)
  | otherExc (name : String)
deriving DecidableEq, Repr

/-- The exception classes caught by the `except (GreenletExit, StopUser)`
clause of `User.run` (source lines 132-134). -/
def isTerminationSignal : PyExc → Bool
  | .greenletExit => true
  | .stopUser => true
  | _ => false

/-- One entry of a resolved weighted task list: a callable (identified by a
number) together with its positive integer weight. -/
structure TaskEntry where
  callableId : Nat
  weight : Nat
deriving DecidableEq, Repr

/-- The parts of a Python class body (`class_dict` in `UserMeta.__new__`)
the metaclass inspects: the tasks declared at this level of the hierarchy,
and the value bound to `abstract` in the class body, if any (`none` when the
body does not assign `abstract`; the `Bool` is the Python truthiness of the
assigned value). -/
structure ClassDict where
  declaredTasks : List TaskEntry
  declaredAbstract : Option Bool
deriving DecidableEq, Repr

/-- A user class as built by the metaclass: its resolved weighted task list
(stored in `class_dict["tasks"]`, hence a class attribute shared by every
instance) and its `abstract` flag. -/
structure UserClass where
  name : String
  tasks : List TaskEntry
  abstract : Bool
deriving DecidableEq, Repr

/-- Modelled from the spec: `get_tasks_from_base_classes` is defined in
`locust/user/task.py`, which is not among the given sources; only its call
site in `UserMeta.__new__` is. Per spec section 4.1 the resolver merges the
tasks declared at this level of the hierarchy with those of the base
classes, most-derived first, deterministically. -/
def get_tasks_from_base_classes (bases : List UserClass) (class_dict : ClassDict) :
    List TaskEntry :=
  class_dict.declaredTasks ++ (bases.map UserClass.tasks).flatten

/-- `UserMeta.__new__` (source lines 24-36): resolve the weighted task list
once and store it in the class dictionary; if the class body did not bind
`abstract` to a truthy value, store `abstract = False` (the check reads only
`class_dict`, never the bases, so the flag is not inherited). -/
def UserMeta.new (classname : String) (bases : List UserClass)
    (class_dict : ClassDict) : UserClass :=
  { name := classname
    tasks := get_tasks_from_base_classes bases class_dict
    abstract :=
      match class_dict.declaredAbstract with
      | some true => true
      | _ => false }

/-- The hook identifiers `environment.events.request_success` and
`environment.events.request_failure` read by `HttpUser.__init__`. -/
structure Events where
  request_success : Nat
  request_failure : Nat
deriving DecidableEq, Repr

/-- The `environment` object passed to `User.__init__` and stored on the
instance. -/
structure Environment where
  events : Events
deriving DecidableEq, Repr

/-- A `User` instance: its class, the `environment` stored by `__init__`,
and the instance attributes `_state`, `_greenlet` and `_taskset_instance`,
all of which are `None` (here `none`) until `run` / `start` assign them.
The greenlet handle is identified by a number; `_taskset_instance` holds the
`DefaultTaskSet` created by `run` (opaque here: `DefaultTaskSet` is defined
in `locust/user/task.py`, outside the given sources). -/
structure User where
  cls : UserClass
  environment : Environment
  state_ : Option LocustState
  greenlet_ : Option Nat
  taskset_instance_ : Option Unit
deriving DecidableEq, Repr

/-- `User.__init__` (source lines 108-110): stores `environment` on the
instance; `_state`, `_greenlet` and `_taskset_instance` keep their
class-level default `None`. -/
def User.init (cls : UserClass) (environment : Environment) : User :=
  { cls := cls
    environment := environment
    state_ := none
    greenlet_ := none
    taskset_instance_ := none }

/-- `User.start` (source lines 148-164): spawns a greenlet running
`run_user(self)` in the gevent group and stores the handle in
`self._greenlet`. The freshly spawned greenlet handle is a parameter. -/
def User.start (u : User) (freshGreenlet : Nat) : User :=
  { u with greenlet_ := some freshGreenlet }

/-- Result of a call to `User.stop`: the Python return value (`none` models
Python `None`, reached by falling off the end of the function), the user
instance after the call, and the calls made on the gevent group — one
`.killone h` per `gevent_group.killone(self._greenlet)` executed, carrying
the value of `self._greenlet` at that moment. -/
structure StopResult where
  retval : Option Bool
  user : User
  kills : List (Option Nat)
deriving DecidableEq, Repr

/-- `User.stop` (source lines 166-183):
if `force or self._state == LOCUST_STATE_WAITING`, call
`gevent_group.killone(self._greenlet)` and return `True`; elif
`self._state == LOCUST_STATE_RUNNING`, set `self._state =
LOCUST_STATE_STOPPING` and return `False`; otherwise fall off the end of the
function, which in Python returns `None`. -/
def User.stop (u : User) (force : Bool) : StopResult :=
  if force = true ∨ u.state_ = some LocustState.waiting then
    { retval := some true, user := u, kills := [u.greenlet_] }
  else if u.state_ = some LocustState.running then
    { retval := some false
      user := { u with state_ := some LocustState.stopping }
      kills := [] }
  else
    { retval := none, user := u, kills := [] }

/-- Result of a call to `User.run`: the user instance when the call ends,
whether `self.on_stop()` was invoked, and the exception propagated out of
`run`, if any (`none` means `run` returned normally). -/
structure RunResult where
  user : User
  onStopCalled : Bool
  propagated : Option PyExc
deriving DecidableEq, Repr

/-- `User.run` (source lines 124-134): set `self._state =
LOCUST_STATE_RUNNING` and `self._taskset_instance = DefaultTaskSet(self)`,
then run `self.on_start()` followed by `self._taskset_instance.run()` inside
a `try` whose `except (GreenletExit, StopUser)` clause runs `self.on_stop()`
and swallows the signal. `on_start` is user-overridable and
`DefaultTaskSet.run` lives in `locust/user/task.py`, so the exception each
of them raises (if any) is a parameter; the task loop only runs when
`on_start` returned normally. -/
def User.run (u : User) (onStart : Option PyExc) (taskLoop : Option PyExc) :
    RunResult :=
  let u1 : User :=
    { u with state_ := some LocustState.running, taskset_instance_ := some () }
  let raised : Option PyExc :=
    match onStart with
    | some e => some e
    | none => taskLoop
  match raised with
  | none => { user := u1, onStopCalled := false, propagated := none }
  | some e =>
    if isTerminationSignal e then
      { user := u1, onStopCalled := true, propagated := none }
    else
      { user := u1, onStopCalled := false, propagated := some e }

/-- The message of the `AttributeError` Python raises when
`self._taskset_instance.wait()` is evaluated while `_taskset_instance` is
still `None`. -/
def noneWaitMessage : String :=
  "NoneType object has no attribute wait"

/-- `User.wait` (source lines 136-146): unconditionally delegates to
`self._taskset_instance.wait()`. While `_taskset_instance` is `None`
(before `run` has begun) the attribute access on `None` raises
`AttributeError`; afterwards the call is forwarded to the `DefaultTaskSet`
(whose body lives in `locust/user/task.py`, outside the given sources). -/
def User.wait (u : User) : Option PyExc :=
  match u.taskset_instance_ with
  | none => some (PyExc.attributeError noneWaitMessage)
  | some _ => none

/-- The message of the `LocustError` raised by
`NoClientWarningRaiser.__getattr__` (source line 16). -/
def noClientErrorMessage : String :=
  "No client instantiated. Did you intend to inherit from HttpUser?"

/-- Result of a Python attribute access: an attribute value was found by
normal lookup, or an exception was raised, or — for special
double-underscore names not defined by the class body itself — the outcome
depends on which members the hosting Python version's `object` provides
(e.g. `__lt__` or `__reduce_ex__` always resolve, `__getstate__` only on
newer Pythons), which is outside this module and left unmodelled. -/
inductive AttrLookup
  | found (name : String)
  | raised (e : PyExc)
  | versionDependent (name : String)
deriving DecidableEq, Repr

/-- The attributes the `NoClientWarningRaiser` class body itself defines
(source lines 10-16): the `__getattr__` method and the docstring `__doc__`.
Normal lookup certainly resolves these, so `__getattr__` is never consulted
for them. -/
def NoClientWarningRaiser.classDefined : List String :=
  ["__getattr__", "__doc__"]

/-- Whether an attribute name has the special double-underscore (dunder)
form. Every attribute Python's normal lookup can resolve on a
`NoClientWarningRaiser` instance is of this form: the instance dictionary
is empty, the class dictionary holds only `__module__`, `__qualname__`,
`__doc__`, `__getattr__`, `__dict__` and `__weakref__`, and every member
`object` contributes is a dunder. Hence for any name not of this form,
normal lookup fails and Python falls back to `__getattr__`. The test —
the name both starts and ends with two underscores — is phrased over the
character list of the name. -/
def specialAttrName (name : String) : Bool :=
  (name.data.take 2 == ['_', '_']) && (name.data.reverse.take 2 == ['_', '_'])

/-- Attribute access on the `NoClientWarningRaiser` instance stored in
`User.client` (source line 103): normal lookup first; on failure Python
calls `__getattr__` (source lines 15-16), which ignores the attribute name
and raises `LocustError`. The class's own members are certainly found;
other dunder names may or may not be resolved by the hosting `object`
depending on the Python version, so the model records them as
`versionDependent` and asserts nothing about them; every non-dunder name
certainly misses normal lookup and reaches `__getattr__`. -/
def NoClientWarningRaiser.getattr (name : String) : AttrLookup :=
  if name ∈ NoClientWarningRaiser.classDefined then AttrLookup.found name
  else if specialAttrName name then AttrLookup.versionDependent name
  else AttrLookup.raised (PyExc.locustError noClientErrorMessage)

/-- The message of the `LocustError` raised by `HttpUser.__init__` when no
host is configured (source line 210). -/
def hostErrorMessage : String :=
  "You must specify the base host. Either in the host attribute in the User class, or on the command line using the --host option."

/-- The `HttpSession` built by `HttpUser.__init__` (source lines 212-217):
`base_url` is the configured host, the two reporting hooks come from
`environment.events`, and `trust_env` is set to `False` right after
construction. -/
structure HttpSession where
  base_url : String
  request_success : Nat
  request_failure : Nat
  trust_env : Bool
deriving DecidableEq, Repr

/-- A fully constructed `HttpUser` instance: the `environment` stored by the
inherited `User.__init__` and the `client` session the constructor creates. -/
structure HttpUserInst where
  environment : Environment
  client : HttpSession
deriving DecidableEq, Repr

/-- `HttpUser.__init__` (source lines 207-218): first `super().__init__`
stores `environment`; then, if `self.host` (the class attribute, `None`
unless the subclass configures it) is `None`, raise `LocustError` — at that
point no `HttpSession` has been built and `self.client` is still the
class-level `None`, so construction fails with no instance produced.
Otherwise build the `HttpSession`, set `trust_env = False` on it and store
it in `self.client`. -/
def HttpUser.init (environment : Environment) (host : Option String) :
    Except PyExc HttpUserInst :=
  match host with
  | none => Except.error (PyExc.locustError hostErrorMessage)
  | some h =>
    Except.ok
      { environment := environment
        client :=
          { base_url := h
            request_success := environment.events.request_success
            request_failure := environment.events.request_failure
            trust_env := false } }

/-! Concrete fixtures used by witnesses and counterexamples. -/

/-- A concrete environment. -/
def sampleEnvironment : Environment :=
  { events := { request_success := 0, request_failure := 1 } }

/-- The `User` base class itself as built by the metaclass: its body declares
`tasks = []` and `abstract = True` (source lines 82, 100). -/
def UserBaseClass : UserClass :=
  UserMeta.new "User" [] { declaredTasks := [], declaredAbstract := some true }

/-- A concrete non-abstract subclass of `User` with one declared task. -/
def sampleClass : UserClass :=
  UserMeta.new "MyUser" [UserBaseClass]
    { declaredTasks := [{ callableId := 0, weight := 3 }]
      declaredAbstract := none }

/-- A freshly constructed user: never started, never run. -/
def sampleUnstartedUser : User :=
  User.init sampleClass sampleEnvironment

/-- A user whose greenlet (handle 7) is mid-`wait()`: state is `waiting`. -/
def sampleWaitingUser : User :=
  { cls := sampleClass
    environment := sampleEnvironment
    state_ := some LocustState.waiting
    greenlet_ := some 7
    taskset_instance_ := some () }

/-- A user whose greenlet (handle 7) is mid-task: state is `running`. -/
def sampleRunningUser : User :=
  { sampleWaitingUser with state_ := some LocustState.running }

/-- A user already asked to stop gracefully: state is `stopping`. -/
def sampleStoppingUser : User :=
  { sampleWaitingUser with state_ := some LocustState.stopping }

/-! Theorems about the claims. -/

/-- Helper: whatever the hooks and the task loop do, the user `run` leaves
behind differs from the initial one exactly in `_state` (set to `running`)
and `_taskset_instance` (set to the created taskset). -/
theorem run_user_eq (u : User) (s t : Option PyExc) :
    (u.run s t).user =
      { u with state_ := some LocustState.running
               taskset_instance_ := some () } := by
  unfold User.run
  cases s <;> cases t <;> dsimp only <;> (try split) <;> rfl

/-- Helper: `stop` never touches the class record of the user. -/
theorem stop_user_cls (u : User) (f : Bool) : (u.stop f).user.cls = u.cls := by
  unfold User.stop
  split
  · rfl
  · split <;> rfl

/-- C1: for every started `User` (the `_greenlet` handle is stored), calling
`stop(group, force)` with `force` true, or with `force` false while the
state is `waiting`, issues exactly one `killone` on the stored greenlet
handle through the group and returns `True`. -/
theorem claim1_forced_or_waiting_stop_kills (u : User) (g : Nat) (force : Bool)
    (hstarted : u.greenlet_ = some g)
    (hcond : force = true ∨ u.state_ = some LocustState.waiting) :
    (u.stop force).kills = [some g] ∧ (u.stop force).retval = some true := by
  unfold User.stop
  rcases hcond with h | h <;> simp [h, hstarted]

/-- Witness for C1: the waiting user with greenlet handle 7, stopped with
`force = False`. -/
theorem claim1_witness :
    (sampleWaitingUser.stop false).kills = [some 7] ∧
      (sampleWaitingUser.stop false).retval = some true :=
  claim1_forced_or_waiting_stop_kills sampleWaitingUser 7 false rfl (Or.inr rfl)

/-- C2: for every `User` whose state is `running`, `stop(group, force=False)`
sets the state to `stopping`, returns `False`, issues no kill on the group,
and changes no attribute of the user other than `_state`. -/
theorem claim2_graceful_stop_while_running (u : User)
    (hrun : u.state_ = some LocustState.running) :
    (u.stop false).retval = some false ∧
      (u.stop false).kills = [] ∧
      (u.stop false).user.state_ = some LocustState.stopping ∧
      (u.stop false).user.cls = u.cls ∧
      (u.stop false).user.environment = u.environment ∧
      (u.stop false).user.greenlet_ = u.greenlet_ ∧
      (u.stop false).user.taskset_instance_ = u.taskset_instance_ := by
  unfold User.stop
  simp [hrun]

/-- Witness for C2: the running user with greenlet handle 7, stopped with
`force = False`. -/
theorem claim2_witness :
    (sampleRunningUser.stop false).retval = some false ∧
      (sampleRunningUser.stop false).kills = [] ∧
      (sampleRunningUser.stop false).user.state_ = some LocustState.stopping ∧
      (sampleRunningUser.stop false).user.cls = sampleRunningUser.cls ∧
      (sampleRunningUser.stop false).user.environment =
        sampleRunningUser.environment ∧
      (sampleRunningUser.stop false).user.greenlet_ =
        sampleRunningUser.greenlet_ ∧
      (sampleRunningUser.stop false).user.taskset_instance_ =
        sampleRunningUser.taskset_instance_ :=
  claim2_graceful_stop_while_running sampleRunningUser rfl

/-- C3 (code bug): on an unstarted user (`_state` is `None`) and on a user
already in state `stopping`, `stop(group, force=False)` indeed issues no
kill and leaves the user unchanged, but its return value is Python `None`
(the function falls off the end, source lines 178-183), not `False` as the
claim and the function's own docstring (line 176, "otherwise False") state. -/
theorem claim3_noop_stop_returns_none :
    (sampleUnstartedUser.stop false).kills = [] ∧
      (sampleUnstartedUser.stop false).user = sampleUnstartedUser ∧
      (sampleUnstartedUser.stop false).retval = none ∧
      (sampleUnstartedUser.stop false).retval ≠ some false ∧
      (sampleStoppingUser.stop false).kills = [] ∧
      (sampleStoppingUser.stop false).user = sampleStoppingUser ∧
      (sampleStoppingUser.stop false).retval = none ∧
      (sampleStoppingUser.stop false).retval ≠ some false := by
  refine ⟨rfl, rfl, rfl, ?_, rfl, rfl, rfl, ?_⟩ <;> decide

/-- C4: `run()` sets the state to `running` (and creates the taskset
instance) before the hooks; when `on_start` raises, the task loop never
runs (the result does not depend on it); and when a recognized termination
signal (`StopUser` or `GreenletExit`) is raised out of `on_start` or out of
the task loop, `run()` invokes `on_stop` and returns normally, propagating
nothing to the caller. -/
theorem claim4_run_termination_invokes_teardown (u : User)
    (onStart taskLoop : Option PyExc) (e : PyExc)
    (hterm : isTerminationSignal e = true)
    (hraise : onStart = some e ∨ (onStart = none ∧ taskLoop = some e)) :
    (u.run onStart taskLoop).user.state_ = some LocustState.running ∧
      (u.run onStart taskLoop).user.taskset_instance_ = some () ∧
      (∀ e0 : PyExc, ∀ t1 t2 : Option PyExc,
        u.run (some e0) t1 = u.run (some e0) t2) ∧
      (u.run onStart taskLoop).onStopCalled = true ∧
      (u.run onStart taskLoop).propagated = none := by
  refine ⟨?_, ?_, ?_, ?_, ?_⟩ <;>
    first
      | (intro e0 t1 t2; rfl)
      | (rcases hraise with ⟨h1⟩ | ⟨h1, h2⟩
         · simp [User.run, h1, hterm]
         · simp [User.run, h1, h2, hterm])

/-- Witness for C4: a user whose `on_start` raises `StopUser`. -/
theorem claim4_witness :
    (sampleUnstartedUser.run (some PyExc.stopUser) none).user.state_ =
        some LocustState.running ∧
      (sampleUnstartedUser.run (some PyExc.stopUser) none).user.taskset_instance_ =
        some () ∧
      (∀ e0 : PyExc, ∀ t1 t2 : Option PyExc,
        sampleUnstartedUser.run (some e0) t1 = sampleUnstartedUser.run (some e0) t2) ∧
      (sampleUnstartedUser.run (some PyExc.stopUser) none).onStopCalled = true ∧
      (sampleUnstartedUser.run (some PyExc.stopUser) none).propagated = none :=
  claim4_run_termination_invokes_teardown sampleUnstartedUser
    (some PyExc.stopUser) none PyExc.stopUser rfl (Or.inl rfl)

/-- C5: any exception that is not a termination signal raised out of
`on_start` or out of the task loop propagates out of `run()` unchanged, and
`on_stop` is not invoked for it. -/
theorem claim5_other_failure_propagates (u : User)
    (onStart taskLoop : Option PyExc) (e : PyExc)
    (hterm : isTerminationSignal e = false)
    (hraise : onStart = some e ∨ (onStart = none ∧ taskLoop = some e)) :
    (u.run onStart taskLoop).propagated = some e ∧
      (u.run onStart taskLoop).onStopCalled = false := by
  rcases hraise with ⟨h1⟩ | ⟨h1, h2⟩
  · simp [User.run, h1, hterm]
  · simp [User.run, h1, h2, hterm]

/-- Witness for C5: a user whose task loop raises `ZeroDivisionError`. -/
theorem claim5_witness :
    (sampleUnstartedUser.run none (some (PyExc.otherExc "ZeroDivisionError"))).propagated =
        some (PyExc.otherExc "ZeroDivisionError") ∧
      (sampleUnstartedUser.run none
          (some (PyExc.otherExc "ZeroDivisionError"))).onStopCalled = false :=
  claim5_other_failure_propagates sampleUnstartedUser none
    (some (PyExc.otherExc "ZeroDivisionError"))
    (PyExc.otherExc "ZeroDivisionError") rfl (Or.inr ⟨rfl, rfl⟩)

/-- C6: instantiating `HttpUser` with no configured host raises the
configuration error (`LocustError`, the code-level name of the spec's
`ConfigurationError`) synchronously inside the constructor: the result is
an error carrying no instance, so no `HttpSession` was created and no
attribute set by this constructor is observable. With a host configured,
construction succeeds and creates the client session with `base_url` equal
to the host, the two reporting hooks taken from `environment.events`, and
`trust_env` set to `False`. -/
theorem claim6_httpuser_requires_host (environment : Environment) :
    HttpUser.init environment none =
        Except.error (PyExc.locustError hostErrorMessage) ∧
      ∀ h : String, HttpUser.init environment (some h) =
        Except.ok
          { environment := environment
            client :=
              { base_url := h
                request_success := environment.events.request_success
                request_failure := environment.events.request_failure
                trust_env := false } } := by
  exact ⟨rfl, fun h => rfl⟩

/-- C7: the weighted task list is resolved exactly once, at class-build
time: the class built by the metaclass stores exactly the resolver's output
as a class attribute; resolving twice yields the identical list;
constructing an instance stores only `environment` and shares the class
record untouched; and neither `run` nor `stop` recomputes or alters the
class's resolved task list. -/
theorem claim7_tasks_resolved_once_at_class_build (classname : String)
    (bases : List UserClass) (class_dict : ClassDict)
    (environment : Environment) :
    (UserMeta.new classname bases class_dict).tasks =
        get_tasks_from_base_classes bases class_dict ∧
      get_tasks_from_base_classes bases class_dict =
        get_tasks_from_base_classes bases class_dict ∧
      (User.init (UserMeta.new classname bases class_dict) environment).cls =
        UserMeta.new classname bases class_dict ∧
      (∀ u : User, ∀ s t : Option PyExc, (u.run s t).user.cls = u.cls) ∧
      (∀ u : User, ∀ f : Bool, (u.stop f).user.cls = u.cls) := by
  refine ⟨rfl, rfl, rfl, fun u s t => ?_, fun u f => stop_user_cls u f⟩
  rw [run_user_eq]

/-- C8: the `abstract` flag is not inherited: whenever the class body does
not itself bind `abstract` to a truthy value, the metaclass stores
`abstract = False` on the new class, whatever the bases — in particular
even when every base is abstract. -/
theorem claim8_abstract_not_inherited (classname : String)
    (bases : List UserClass) (class_dict : ClassDict)
    (hnodecl : class_dict.declaredAbstract ≠ some true) :
    (UserMeta.new classname bases class_dict).abstract = false := by
  unfold UserMeta.new
  cases h : class_dict.declaredAbstract with
  | none => rfl
  | some b =>
    cases b with
    | false => rfl
    | true => exact absurd h hnodecl

/-- Witness for C8: a subclass of the abstract `User` base class whose body
does not bind `abstract` gets `abstract = False`, while its base has
`abstract = True`. -/
theorem claim8_witness :
    ({ declaredTasks := [{ callableId := 0, weight := 3 }]
       declaredAbstract := none } : ClassDict).declaredAbstract ≠ some true ∧
      UserBaseClass.abstract = true ∧
      (UserMeta.new "MyUser" [UserBaseClass]
        { declaredTasks := [{ callableId := 0, weight := 3 }]
          declaredAbstract := none }).abstract = false :=
  ⟨by decide, rfl,
    claim8_abstract_not_inherited "MyUser" [UserBaseClass]
      { declaredTasks := [{ callableId := 0, weight := 3 }]
        declaredAbstract := none } (by decide)⟩

/-- C9 counterexample: not every attribute access on the placeholder
`client` raises: `__doc__` is resolved by Python's normal lookup (the
`NoClientWarningRaiser` class body has a docstring, source lines 11-14), so
`__getattr__` is never consulted for it and the access returns a value
instead of raising `LocustError`. -/
theorem claim9_counterexample :
    NoClientWarningRaiser.getattr "__doc__" = AttrLookup.found "__doc__" ∧
      NoClientWarningRaiser.getattr "__doc__" ≠
        AttrLookup.raised (PyExc.locustError noClientErrorMessage) := by
  constructor
  · rfl
  · decide

/-- C9 (amended): accessing any attribute of the placeholder `client` whose
name is not of the special double-underscore form — in particular every
attribute a test script would use, such as `get` or `post` — raises
`LocustError` with the message directing the author to `HttpUser`, rather
than returning a value or raising `AttributeError`: normal lookup can only
resolve dunder names on this instance, so every other access reaches
`__getattr__`. -/
theorem claim9_unresolved_attr_raises_locust_error (name : String)
    (hplain : specialAttrName name = false) :
    NoClientWarningRaiser.getattr name =
      AttrLookup.raised (PyExc.locustError noClientErrorMessage) := by
  have hnotin : name ∉ NoClientWarningRaiser.classDefined := by
    intro hin
    have hsp : specialAttrName name = true := by
      simp [NoClientWarningRaiser.classDefined] at hin
      rcases hin with h | h <;> rw [h] <;> decide
    rw [hsp] at hplain
    cases hplain
  unfold NoClientWarningRaiser.getattr
  simp [hnotin, hplain]

/-- Witness for C9: accessing `get` on the placeholder client raises the
`LocustError`. -/
theorem claim9_witness :
    NoClientWarningRaiser.getattr "get" =
      AttrLookup.raised (PyExc.locustError noClientErrorMessage) :=
  claim9_unresolved_attr_raises_locust_error "get" (by decide)

/-- C10: `wait()` unconditionally delegates to `self._taskset_instance`,
which a freshly constructed user still has as `None` — so calling `wait()`
before `run()` has begun raises `AttributeError` — while `run()` assigns the
taskset instance at its start, before the hooks and regardless of their
outcome. -/
theorem claim10_wait_requires_run_begun (cls : UserClass)
    (environment : Environment) :
    (User.init cls environment).taskset_instance_ = none ∧
      (User.init cls environment).wait =
        some (PyExc.attributeError noneWaitMessage) ∧
      ∀ u : User, ∀ s t : Option PyExc,
        (u.run s t).user.taskset_instance_ = some () := by
  refine ⟨rfl, rfl, fun u s t => ?_⟩
  rw [run_user_eq]

end Locust
